import Mathlib

/-!
Shallow embedding of the `smart-swap` Soroban contract
(`src/contracts/contracts/smart-swap/src/{lib,swap_condition,price_oracle,dex_integration}.rs`).

Modelling conventions:
* `u64` / `u32` values are `Nat`. Where a 64-bit multiplication or addition can
  overflow for representable inputs (the price/amount arithmetic), the operation
  is taken modulo `2^64` (`wmul` / `wadd`), matching Rust release-build wrapping
  semantics; counters, ids and timestamps, whose overflow is unreachable, are
  plain `Nat`. Rust `saturating_sub` and ordinary `u64` subtraction guarded by a
  comparison are `Nat` subtraction (which saturates at zero).
* `Address` is `Nat`, `Symbol` is `String`; `soroban_sdk::Map` is an
  association list (`mapGet` / `mapSet`), iterated in insertion order (states in
  this file insert keys in ascending order, matching soroban's key-ordered
  iteration).
* `Env` is replaced by an explicit `now : Nat` timestamp; contract storage is an
  explicit `ContractState` record threaded through the entry points. An
  `Except.error` result leaves the state unchanged, matching soroban's
  revert-on-error semantics (in the source no storage write precedes any error
  return in the functions modelled here).
* `require_auth` (which only proves the caller's identity) and `log!` are
  no-ops; `SwapValidationError` error codes are dropped, keeping the message
  `Symbol` (the source propagates such errors with `?` into `Symbol`-typed
  results).
-/

/-- The wrap-around modulus of Rust `u64` arithmetic, `2^64`. -/
def U64 : Nat := 18446744073709551616

/-- The wrap-around modulus of Rust `u32` arithmetic (`as u32` casts), `2^32`. -/
def U32 : Nat := 4294967296

/-- Wrapping `u64` multiplication. -/
def wmul (a b : Nat) : Nat := a * b % U64

/-- Wrapping `u64` addition. -/
def wadd (a b : Nat) : Nat := (a + b) % U64

/-- Embeds `SwapConditionType` from `swap_condition.rs`. -/
inductive SwapConditionType where
  | PercentageIncrease (percentage : Nat)
  | PercentageDecrease (percentage : Nat)
  | TargetPrice (price : Nat)
  | PriceAbove (threshold : Nat)
  | PriceBelow (threshold : Nat)
deriving DecidableEq

/-- Embeds `SwapStatus` from `swap_condition.rs`. -/
inductive SwapStatus where
  | Active
  | Executed
  | Cancelled
  | Failed
  | Expired
deriving DecidableEq

/-- Embeds `SwapCondition` from `swap_condition.rs`. -/
structure SwapCondition where
  id : Nat
  owner : Nat
  source_asset : String
  destination_asset : String
  condition_type : SwapConditionType
  amount_to_swap : Nat
  min_amount_out : Nat
  max_slippage : Nat
  reference_price : Nat
  created_at : Nat
  expires_at : Nat
  status : SwapStatus
  last_check : Nat
  execution_count : Nat
  max_executions : Nat
deriving DecidableEq

/-- Embeds `SwapExecution` from `swap_condition.rs`. -/
structure SwapExecution where
  condition_id : Nat
  executed_at : Nat
  execution_price : Nat
  amount_in : Nat
  amount_out : Nat
  actual_slippage : Nat
  gas_used : Nat
  tx_hash : String
deriving DecidableEq

/-- Embeds `CreateSwapRequest` from `swap_condition.rs`. -/
structure CreateSwapRequest where
  source_asset : String
  destination_asset : String
  condition_type : SwapConditionType
  amount_to_swap : Nat
  max_slippage : Nat
  expires_at : Nat
  max_executions : Nat
deriving DecidableEq

def MAX_SLIPPAGE_BASIS_POINTS : Nat := 5000
def MIN_SLIPPAGE_BASIS_POINTS : Nat := 1
def MAX_SWAP_AMOUNT : Nat := 10000000000000
def MIN_SWAP_AMOUNT : Nat := 10000000
def MAX_CONDITION_LIFETIME : Nat := 86400 * 365
def MIN_CONDITION_LIFETIME : Nat := 60
def MAX_PERCENTAGE_CHANGE : Nat := 10000
def MIN_PERCENTAGE_CHANGE : Nat := 1

/-- Embeds `SwapCondition::calculate_min_amount_out`.  The base amount is
`(amount_in * reference_price) / reference_price` exactly as in the source,
with the `u64` product taken modulo `2^64`. -/
def calculate_min_amount_out (amount_in reference_price max_slippage : Nat) : Nat :=
  let base_amount_out := wmul amount_in reference_price / reference_price
  let slippage_factor := 10000 - max_slippage
  wmul base_amount_out slippage_factor / 10000

/-- Embeds `SwapCondition::new`. -/
def SwapCondition.new (now id owner : Nat) (request : CreateSwapRequest)
    (reference_price : Nat) : SwapCondition :=
  { id := id
    owner := owner
    source_asset := request.source_asset
    destination_asset := request.destination_asset
    condition_type := request.condition_type
    amount_to_swap := request.amount_to_swap
    min_amount_out :=
      calculate_min_amount_out request.amount_to_swap reference_price request.max_slippage
    max_slippage := request.max_slippage
    reference_price := reference_price
    created_at := now
    expires_at := request.expires_at
    status := SwapStatus.Active
    last_check := now
    execution_count := 0
    max_executions := request.max_executions }

/-- Embeds `SwapCondition::is_valid` (error codes 1001-1006 dropped, messages kept). -/
def SwapCondition.is_valid (c : SwapCondition) (now : Nat) : Except String Unit :=
  if c.expires_at < now then Except.error "condition_expired"
  else if c.max_executions = 1 ∧ 1 ≤ c.execution_count then Except.error "already_executed"
  else if 0 < c.max_executions ∧ c.max_executions ≤ c.execution_count then
    Except.error "execution_limit_reached"
  else
    match c.status with
    | SwapStatus.Cancelled => Except.error "condition_cancelled"
    | SwapStatus.Failed => Except.error "condition_failed"
    | SwapStatus.Expired => Except.error "condition_expired"
    | _ => Except.ok ()

/-- Embeds `SwapCondition::should_execute`.  Multiplications and additions wrap at
`2^64`; `saturating_sub` is `Nat` subtraction. -/
def SwapCondition.should_execute (c : SwapCondition) (current_price : Nat) : Bool :=
  match c.condition_type with
  | SwapConditionType.PercentageIncrease percentage =>
      let increase_required := wmul c.reference_price percentage / 100
      decide (wadd c.reference_price increase_required ≤ current_price)
  | SwapConditionType.PercentageDecrease percentage =>
      let decrease_required := wmul c.reference_price percentage / 100
      decide (current_price ≤ c.reference_price - decrease_required)
  | SwapConditionType.TargetPrice target =>
      let tolerance := target / 1000
      decide (target - tolerance ≤ current_price) && decide (current_price ≤ wadd target tolerance)
  | SwapConditionType.PriceAbove threshold => decide (threshold < current_price)
  | SwapConditionType.PriceBelow threshold => decide (current_price < threshold)

/-- Embeds `SwapCondition::update_execution` (the `execution` argument is unused in the
source as well). -/
def SwapCondition.update_execution (c : SwapCondition) (now : Nat)
    (_execution : SwapExecution) : SwapCondition :=
  let c' := { c with execution_count := c.execution_count + 1, last_check := now }
  if 0 < c'.max_executions ∧ c'.max_executions ≤ c'.execution_count then
    { c' with status := SwapStatus.Executed }
  else c'

/-- Embeds `SwapCondition::cancel`. -/
def SwapCondition.cancel (c : SwapCondition) : SwapCondition :=
  { c with status := SwapStatus.Cancelled }

/-- Embeds `SwapCondition::mark_as_failed`. -/
def SwapCondition.mark_as_failed (c : SwapCondition) : SwapCondition :=
  { c with status := SwapStatus.Failed }

/-- Embeds `SwapCondition::mark_as_expired`. -/
def SwapCondition.mark_as_expired (c : SwapCondition) (now : Nat) : SwapCondition :=
  if c.expires_at < now then { c with status := SwapStatus.Expired } else c

/-- Embeds `CreateSwapRequest::validate_condition_type` (error codes 2101-2105 dropped). -/
def CreateSwapRequest.validate_condition_type (r : CreateSwapRequest) : Except String Unit :=
  match r.condition_type with
  | SwapConditionType.PercentageIncrease percentage =>
      if percentage < MIN_PERCENTAGE_CHANGE ∨ MAX_PERCENTAGE_CHANGE < percentage then
        Except.error "invalid_percentage"
      else Except.ok ()
  | SwapConditionType.PercentageDecrease percentage =>
      if percentage < MIN_PERCENTAGE_CHANGE ∨ MAX_PERCENTAGE_CHANGE < percentage then
        Except.error "invalid_percentage"
      else Except.ok ()
  | SwapConditionType.TargetPrice price =>
      if price = 0 then Except.error "invalid_target_price" else Except.ok ()
  | SwapConditionType.PriceAbove threshold =>
      if threshold = 0 then Except.error "invalid_price_threshold" else Except.ok ()
  | SwapConditionType.PriceBelow threshold =>
      if threshold = 0 then Except.error "invalid_price_threshold" else Except.ok ()

/-- Embeds `CreateSwapRequest::validate` (error codes 2001-2007 dropped; the lifetime
uses `saturating_sub`, i.e. `Nat` subtraction). -/
def CreateSwapRequest.validate (r : CreateSwapRequest) (now : Nat) : Except String Unit :=
  if r.amount_to_swap < MIN_SWAP_AMOUNT then Except.error "amount_too_small"
  else if MAX_SWAP_AMOUNT < r.amount_to_swap then Except.error "amount_too_large"
  else if r.max_slippage < MIN_SLIPPAGE_BASIS_POINTS then Except.error "slippage_too_low"
  else if MAX_SLIPPAGE_BASIS_POINTS < r.max_slippage then Except.error "slippage_too_high"
  else if r.expires_at - now < MIN_CONDITION_LIFETIME then Except.error "lifetime_too_short"
  else if MAX_CONDITION_LIFETIME < r.expires_at - now then Except.error "lifetime_too_long"
  else if r.source_asset = r.destination_asset then Except.error "same_assets"
  else r.validate_condition_type

/-- Embeds `SwapExecution::new`.  The slippage numerator is a `u64` product (wrapped)
and the result is cast `as u32` (modulo `2^32`). -/
def SwapExecution.new (now condition_id execution_price amount_in amount_out gas_used : Nat)
    (tx_hash : String) : SwapExecution :=
  let actual_slippage :=
    if 0 < amount_in then
      let expected_out := amount_in
      if amount_out < expected_out then
        wmul (expected_out - amount_out) 10000 / expected_out % U32
      else 0
    else 0
  { condition_id := condition_id
    executed_at := now
    execution_price := execution_price
    amount_in := amount_in
    amount_out := amount_out
    actual_slippage := actual_slippage
    gas_used := gas_used
    tx_hash := tx_hash }

/-- Embeds `OracleConfig` from `price_oracle.rs`. -/
structure OracleConfig where
  oracle_contract_address : Nat
  max_price_age : Nat
  fallback_enabled : Bool
  min_confidence : Nat
deriving DecidableEq

/-- Embeds `PriceData` from `price_oracle.rs`. -/
structure PriceData where
  asset_symbol : String
  price : Nat
  timestamp : Nat
  confidence : Nat
  source_count : Nat
deriving DecidableEq

/-- Embeds `PriceQueryResult` from `price_oracle.rs`. -/
structure PriceQueryResult where
  success : Bool
  price_data : Option PriceData
  error_message : Option String
deriving DecidableEq

/-- Embeds `PriceOracleClient::query_oracle_price`: the source's simulated oracle
response (mock prices, confidence 85, 5 sources, current timestamp). -/
def PriceOracleClient.query_oracle_price (now : Nat) (asset_symbol : String) :
    Except String PriceData :=
  if asset_symbol = "XLM" then
    Except.ok ⟨asset_symbol, 120000, now, 85, 5⟩
  else if asset_symbol = "USDC" then
    Except.ok ⟨asset_symbol, 1000000, now, 85, 5⟩
  else if asset_symbol = "BTC" then
    Except.ok ⟨asset_symbol, 45000000000, now, 85, 5⟩
  else if asset_symbol = "ETH" then
    Except.ok ⟨asset_symbol, 3000000000, now, 85, 5⟩
  else Except.error "unsupported_asset"

/-- Embeds `PriceOracleClient::is_price_data_valid` (`saturating_sub` for the age). -/
def PriceOracleClient.is_price_data_valid (now : Nat) (price_data : PriceData)
    (oracle_config : OracleConfig) : Bool :=
  if oracle_config.max_price_age < now - price_data.timestamp then false
  else if price_data.confidence < oracle_config.min_confidence then false
  else if price_data.price = 0 then false
  else if price_data.source_count < 2 then false
  else true

/-- Embeds `PriceOracleClient::query_historical_price`: simulated fallback prices,
5 minutes old, confidence 70, 3 sources. -/
def PriceOracleClient.query_historical_price (now : Nat) (asset_symbol : String) :
    Except String PriceData :=
  if asset_symbol = "XLM" then
    Except.ok ⟨asset_symbol, 118000, now - 300, 70, 3⟩
  else if asset_symbol = "USDC" then
    Except.ok ⟨asset_symbol, 999500, now - 300, 70, 3⟩
  else if asset_symbol = "BTC" then
    Except.ok ⟨asset_symbol, 44500000000, now - 300, 70, 3⟩
  else if asset_symbol = "ETH" then
    Except.ok ⟨asset_symbol, 2980000000, now - 300, 70, 3⟩
  else Except.error "no_historical_data"

/-- Embeds `PriceOracleClient::get_fallback_price`. -/
def PriceOracleClient.get_fallback_price (now : Nat) (asset_symbol : String) :
    PriceQueryResult :=
  match PriceOracleClient.query_historical_price now asset_symbol with
  | Except.ok price_data => ⟨true, some price_data, none⟩
  | Except.error e => ⟨false, none, some e⟩

/-- Embeds `PriceOracleClient::get_price`. -/
def PriceOracleClient.get_price (now : Nat) (oracle_config : OracleConfig)
    (asset_symbol : String) : PriceQueryResult :=
  match PriceOracleClient.query_oracle_price now asset_symbol with
  | Except.ok price_data =>
      if PriceOracleClient.is_price_data_valid now price_data oracle_config then
        ⟨true, some price_data, none⟩
      else if oracle_config.fallback_enabled then
        PriceOracleClient.get_fallback_price now asset_symbol
      else ⟨false, none, some "invalid_price_data"⟩
  | Except.error e =>
      if oracle_config.fallback_enabled then
        PriceOracleClient.get_fallback_price now asset_symbol
      else ⟨false, none, some e⟩

/-- Embeds `PriceOracleClient::validate_price_for_swap`. -/
def PriceOracleClient.validate_price_for_swap (now : Nat) (price_data : PriceData)
    (oracle_config : OracleConfig) : Except String Unit :=
  if oracle_config.max_price_age < now - price_data.timestamp then
    Except.error "price_too_old"
  else if price_data.confidence < oracle_config.min_confidence then
    Except.error "insufficient_confidence"
  else if price_data.price = 0 then Except.error "zero_price"
  else Except.ok ()

/-- Embeds `OracleConfigManager::create_default_config`. -/
def OracleConfigManager.create_default_config (oracle_address : Nat) : OracleConfig :=
  ⟨oracle_address, 300, true, 70⟩

/-- Embeds `DexConfig` from `dex_integration.rs`. -/
structure DexConfig where
  dex_contract_address : Nat
  router_address : Option Nat
  factory_address : Option Nat
  fee_tier : Nat
  min_liquidity : Nat
  max_slippage_tolerance : Nat
deriving DecidableEq

/-- Embeds `SwapPath` from `dex_integration.rs`. -/
structure SwapPath where
  token_in : String
  token_out : String
  intermediate_tokens : List String
  pool_addresses : List Nat
deriving DecidableEq

/-- Embeds `SwapQuote` from `dex_integration.rs`. -/
structure SwapQuote where
  amount_in : Nat
  amount_out : Nat
  price_impact : Nat
  estimated_gas : Nat
  route : SwapPath
  valid_until : Nat
deriving DecidableEq

/-- Embeds `SwapParams` from `dex_integration.rs` (`to` is a reserved token in Lean, so
the recipient field is named `to_address`). -/
structure SwapParams where
  token_in : String
  token_out : String
  amount_in : Nat
  amount_out_min : Nat
  to_address : Nat
  deadline : Nat
deriving DecidableEq

/-- Embeds `SwapResult` from `dex_integration.rs`. -/
structure SwapResult where
  success : Bool
  amount_in : Nat
  amount_out : Nat
  actual_price_impact : Nat
  gas_used : Nat
  transaction_hash : String
  error_message : Option String
deriving DecidableEq

/-- Embeds `PoolInfo` from `dex_integration.rs`. -/
structure PoolInfo where
  pool_address : Nat
  token_a : String
  token_b : String
  reserve_a : Nat
  reserve_b : Nat
  total_supply : Nat
  fee_rate : Nat
  last_updated : Nat
deriving DecidableEq

/-- Embeds `StellarDexIntegration::get_simulated_reserves`. -/
def get_simulated_reserves (token_a token_b : String) : Nat × Nat :=
  if (token_a = "XLM" ∧ token_b = "USDC") ∨ (token_a = "USDC" ∧ token_b = "XLM") then
    (100000000000000, 1200000000000)
  else if (token_a = "BTC" ∧ token_b = "XLM") ∨ (token_a = "XLM" ∧ token_b = "BTC") then
    (1000000000, 375000000000000000)
  else if (token_a = "ETH" ∧ token_b = "XLM") ∨ (token_a = "XLM" ∧ token_b = "ETH") then
    (10000000000, 250000000000000000)
  else if (token_a = "USDC" ∧ token_b = "BTC") ∨ (token_a = "BTC" ∧ token_b = "USDC") then
    (4500000000000, 1000000000)
  else (10000000000000, 10000000000000)

/-- Embeds `StellarDexIntegration::get_pool_info`.  The `Address::generate` placeholder
pool address is modelled as `0` (the address never influences any computation);
`total_supply` is the source's (wrapping) `reserve_a + reserve_b`. -/
def get_pool_info (now : Nat) (dex_config : DexConfig) (token_a token_b : String) : PoolInfo :=
  let reserves := get_simulated_reserves token_a token_b
  { pool_address := 0
    token_a := token_a
    token_b := token_b
    reserve_a := reserves.1
    reserve_b := reserves.2
    total_supply := wadd reserves.1 reserves.2
    fee_rate := dex_config.fee_tier
    last_updated := now }

/-- Embeds `StellarDexIntegration::validate_swap_params`. -/
def validate_swap_params (token_in token_out : String) (amount_in : Nat) :
    Except String Unit :=
  if token_in = token_out then Except.error "identical_tokens"
  else if amount_in = 0 then Except.error "zero_amount"
  else if 10000000000000 < amount_in then Except.error "amount_too_large"
  else Except.ok ()

/-- Embeds `StellarDexIntegration::validate_swap_execution`. -/
def validate_swap_execution (now : Nat) (params : SwapParams) : Except String Unit :=
  if params.deadline < now then Except.error "deadline_exceeded"
  else if params.amount_out_min = 0 then Except.error "invalid_min_output"
  else validate_swap_params params.token_in params.token_out params.amount_in

/-- Embeds `StellarDexIntegration::find_optimal_path`.  `pool_exists` is `true` in the
source, so the direct pool is always taken. -/
def find_optimal_path (token_in token_out : String) : Except String SwapPath :=
  Except.ok { token_in := token_in, token_out := token_out,
              intermediate_tokens := [], pool_addresses := [0] }

/-- Embeds `StellarDexIntegration::estimate_token_complexity_gas`. -/
def estimate_token_complexity_gas (token_in token_out : String) : Nat :=
  (if token_in = "XLM" then 0 else 10000) + (if token_out = "XLM" then 0 else 10000)

/-- Embeds `StellarDexIntegration::estimate_gas`. -/
def estimate_gas (params : SwapParams) (swap_path : SwapPath) : Nat :=
  100000 + swap_path.intermediate_tokens.length * 50000 +
    estimate_token_complexity_gas params.token_in params.token_out

/-- Embeds `StellarDexIntegration::calculate_swap_output`: constant-product quote with
fee, all `u64` products and the denominator sum wrapping at `2^64`, and the
price impact cast `as u32` (modulo `2^32`). -/
def calculate_swap_output (pool_info : PoolInfo) (amount_in : Nat)
    (is_token_a_input : Bool) : Except String (Nat × Nat) :=
  let reserves :=
    match is_token_a_input with
    | true => (pool_info.reserve_a, pool_info.reserve_b)
    | false => (pool_info.reserve_b, pool_info.reserve_a)
  let reserve_in := reserves.1
  let reserve_out := reserves.2
  if reserve_in = 0 ∨ reserve_out = 0 then Except.error "insufficient_liquidity"
  else
    let fee_complement := 10000 - pool_info.fee_rate
    let amount_in_with_fee := wmul amount_in fee_complement / 10000
    let numerator := wmul amount_in_with_fee reserve_out
    let denominator := wadd reserve_in amount_in_with_fee
    if denominator = 0 then Except.error "calculation_error"
    else
      let amount_out := numerator / denominator
      let price_impact :=
        if 0 < reserve_in then wmul amount_in 10000 / reserve_in % U32 else 10000
      Except.ok (amount_out, price_impact)

/-- The multi-hop loop inside `StellarDexIntegration::calculate_swap_quote`:
threads the current token, running amount and summed price impact through the
intermediate tokens. -/
def swap_quote_hops (now : Nat) (dex_config : DexConfig) :
    List String → String → Nat → Nat → Except String (String × Nat × Nat)
  | [], current_token, current_amount, total_impact =>
      Except.ok (current_token, current_amount, total_impact)
  | intermediate :: rest, current_token, current_amount, total_impact =>
      match calculate_swap_output (get_pool_info now dex_config current_token intermediate)
          current_amount true with
      | Except.error e => Except.error e
      | Except.ok (amount_out, price_impact) =>
          swap_quote_hops now dex_config rest intermediate amount_out
            (total_impact + price_impact)

/-- Embeds `StellarDexIntegration::calculate_swap_quote`. -/
def calculate_swap_quote (now : Nat) (dex_config : DexConfig) (swap_path : SwapPath)
    (amount_in : Nat) : Except String SwapQuote :=
  let direct :=
    if swap_path.intermediate_tokens.isEmpty then
      match calculate_swap_output
          (get_pool_info now dex_config swap_path.token_in swap_path.token_out)
          amount_in true with
      | Except.error e => Except.error e
      | Except.ok (amount_out, price_impact) => Except.ok (amount_out, price_impact)
    else
      match swap_quote_hops now dex_config swap_path.intermediate_tokens
          swap_path.token_in amount_in 0 with
      | Except.error e => Except.error e
      | Except.ok (current_token, current_amount, total_impact) =>
          match calculate_swap_output
              (get_pool_info now dex_config current_token swap_path.token_out)
              current_amount false with
          | Except.error e => Except.error e
          | Except.ok (amount_out, price_impact) =>
              Except.ok (amount_out, total_impact + price_impact)
  match direct with
  | Except.error e => Except.error e
  | Except.ok (current_amount, total_price_impact) =>
      let estimated_gas := estimate_gas
        { token_in := swap_path.token_in, token_out := swap_path.token_out,
          amount_in := amount_in, amount_out_min := current_amount,
          to_address := 0, deadline := now + 300 } swap_path
      Except.ok { amount_in := amount_in, amount_out := current_amount,
                  price_impact := total_price_impact, estimated_gas := estimated_gas,
                  route := swap_path, valid_until := now + 30 }

/-- Embeds `StellarDexIntegration::get_swap_quote`. -/
def get_swap_quote (now : Nat) (dex_config : DexConfig) (token_in token_out : String)
    (amount_in : Nat) : Except String SwapQuote :=
  match validate_swap_params token_in token_out amount_in with
  | Except.error e => Except.error e
  | Except.ok _ =>
      match find_optimal_path token_in token_out with
      | Except.error e => Except.error e
      | Except.ok swap_path => calculate_swap_quote now dex_config swap_path amount_in

/-- Embeds `StellarDexIntegration::perform_swap_execution`: the simulated execution
always succeeds, paying out the quoted amount with +10% gas variation. -/
def perform_swap_execution (swap_params : SwapParams) (quote : SwapQuote) :
    Except String SwapResult :=
  Except.ok { success := true, amount_in := swap_params.amount_in,
              amount_out := quote.amount_out,
              actual_price_impact := quote.price_impact,
              gas_used := quote.estimated_gas + quote.estimated_gas / 10,
              transaction_hash := "simulated_tx_hash", error_message := none }

/-- A failed `SwapResult` as built in `StellarDexIntegration::execute_swap`. -/
def failed_swap_result (e : String) : SwapResult :=
  { success := false, amount_in := 0, amount_out := 0, actual_price_impact := 0,
    gas_used := 0, transaction_hash := "", error_message := some e }

/-- Embeds `StellarDexIntegration::execute_swap`. -/
def StellarDexIntegration.execute_swap (now : Nat) (dex_config : DexConfig)
    (swap_params : SwapParams) : SwapResult :=
  match validate_swap_execution now swap_params with
  | Except.error e => failed_swap_result e
  | Except.ok _ =>
      match get_swap_quote now dex_config swap_params.token_in swap_params.token_out
          swap_params.amount_in with
      | Except.error e => failed_swap_result e
      | Except.ok quote =>
          if quote.amount_out < swap_params.amount_out_min then
            failed_swap_result "slippage_exceeded"
          else
            match perform_swap_execution swap_params quote with
            | Except.ok result => result
            | Except.error e => failed_swap_result e

/-- Embeds `StellarDexIntegration::check_liquidity` (`amount_in * 2` is a wrapping
`u64` product, as is the total-reserve sum). -/
def check_liquidity (now : Nat) (dex_config : DexConfig) (token_in token_out : String)
    (amount_in : Nat) : Except String Bool :=
  let pool_info := get_pool_info now dex_config token_in token_out
  let required_liquidity := wmul amount_in 2
  let available_liquidity :=
    if pool_info.token_a = token_in then pool_info.reserve_a else pool_info.reserve_b
  if available_liquidity < required_liquidity then Except.ok false
  else Except.ok (dex_config.min_liquidity ≤ wadd pool_info.reserve_a pool_info.reserve_b)

/-- Embeds `DexConfigManager::create_default_config`. -/
def DexConfigManager.create_default_config (dex_address : Nat) : DexConfig :=
  ⟨dex_address, none, none, 30, 1000000000000, 1000⟩

/-- Embeds `ContractConfig` from `lib.rs`. -/
structure ContractConfig where
  admin : Nat
  oracle_config : OracleConfig
  dex_config : DexConfig
  paused : Bool
  max_conditions_per_user : Nat
  min_condition_value : Nat
deriving DecidableEq

/-- Embeds `GlobalStats` from `lib.rs`. -/
structure GlobalStats where
  total_conditions_created : Nat
  total_conditions_executed : Nat
  total_volume_swapped : Nat
  total_fees_collected : Nat
  active_conditions_count : Nat
deriving DecidableEq

/-- Lookup in an association-list model of `soroban_sdk::Map` (first match). -/
def mapGet {α : Type} (m : List (Nat × α)) (k : Nat) : Option α :=
  match m with
  | [] => none
  | (k', v) :: rest => if k' = k then some v else mapGet rest k

/-- Update in an association-list model of `soroban_sdk::Map`: replaces the
binding in place, or appends a new binding at the end. -/
def mapSet {α : Type} (m : List (Nat × α)) (k : Nat) (v : α) : List (Nat × α) :=
  match m with
  | [] => [(k, v)]
  | (k', v') :: rest => if k' = k then (k, v) :: rest else (k', v') :: mapSet rest k v

/-- The contract's instance storage (`DataKey` entries of `lib.rs`).  `config`
models the `DataKey::Admin` entry; the map/list entries are created by
`initialize` together with it, so post-initialization states carry them
directly and the (unreachable after initialization) `"no_conditions"` branch of
the missing-map read is not modelled. -/
structure ContractState where
  config : Option ContractConfig
  conditions : List (Nat × SwapCondition)
  userConditions : List (Nat × List Nat)
  executions : List (Nat × List SwapExecution)
  nextConditionId : Nat
  supportedAssets : List String
  stats : GlobalStats
deriving DecidableEq

/-- Embeds `SmartSwap::check_not_paused`. -/
def check_not_paused (s : ContractState) : Except String Unit :=
  match s.config with
  | none => Except.error "not_initialized"
  | some config => if config.paused then Except.error "contract_paused" else Except.ok ()

/-- Embeds `SmartSwap::check_user_condition_limit`. -/
def check_user_condition_limit (s : ContractState) (user max_conditions : Nat) :
    Except String Unit :=
  let user_conditions := (mapGet s.userConditions user).getD []
  let active_count := user_conditions.countP (fun condition_id =>
    match mapGet s.conditions condition_id with
    | some condition => decide (condition.status = SwapStatus.Active)
    | none => false)
  if max_conditions ≤ active_count then Except.error "condition_limit_exceeded"
  else Except.ok ()

/-- Embeds `SmartSwap::add_user_condition`. -/
def add_user_condition (s : ContractState) (user condition_id : Nat) : ContractState :=
  { s with userConditions :=
      mapSet s.userConditions user ((mapGet s.userConditions user).getD [] ++ [condition_id]) }

/-- Embeds `SmartSwap::store_execution_record`. -/
def store_execution_record (s : ContractState) (condition_id : Nat)
    (execution : SwapExecution) : ContractState :=
  { s with executions :=
      mapSet s.executions condition_id ((mapGet s.executions condition_id).getD [] ++ [execution]) }

/-- Embeds `SmartSwap::get_condition`. -/
def get_condition (s : ContractState) (condition_id : Nat) : Option SwapCondition :=
  mapGet s.conditions condition_id

/-- Embeds `SmartSwap::create_swap_condition` (`caller.require_auth()` proves identity
only and is a no-op here). -/
def create_swap_condition (now : Nat) (s : ContractState) (caller : Nat)
    (request : CreateSwapRequest) : Except String (Nat × ContractState) :=
  match check_not_paused s with
  | Except.error e => Except.error e
  | Except.ok _ =>
  match request.validate now with
  | Except.error e => Except.error e
  | Except.ok _ =>
  match s.config with
  | none => Except.error "not_initialized"
  | some config =>
  match check_user_condition_limit s caller config.max_conditions_per_user with
  | Except.error e => Except.error e
  | Except.ok _ =>
  if request.amount_to_swap < config.min_condition_value then
    Except.error "amount_below_minimum"
  else
  let price_result := PriceOracleClient.get_price now config.oracle_config request.source_asset
  if price_result.success = false then
    Except.error (price_result.error_message.getD "price_unavailable")
  else
  match price_result.price_data with
  | none => Except.error "no_price_data"
  | some current_price =>
  match PriceOracleClient.validate_price_for_swap now current_price config.oracle_config with
  | Except.error e => Except.error e
  | Except.ok _ =>
  match check_liquidity now config.dex_config request.source_asset
      request.destination_asset request.amount_to_swap with
  | Except.error e => Except.error e
  | Except.ok has_liquidity =>
  if has_liquidity = false then Except.error "insufficient_liquidity"
  else
  let condition_id := s.nextConditionId
  let s1 := { s with nextConditionId := s.nextConditionId + 1 }
  let swap_condition := SwapCondition.new now condition_id caller request current_price.price
  let s2 := { s1 with conditions := mapSet s1.conditions condition_id swap_condition }
  let s3 := add_user_condition s2 caller condition_id
  let s4 := { s3 with stats := { s3.stats with
      total_conditions_created := s3.stats.total_conditions_created + 1,
      active_conditions_count := s3.stats.active_conditions_count + 1 } }
  Except.ok (condition_id, s4)

/-- Embeds `SmartSwap::execute_swap` (the private helper in `lib.rs`): builds the swap
parameters, calls the DEX, constructs the execution record, and returns `Err`
with the DEX error message whenever the DEX result is unsuccessful. -/
def SmartSwap.execute_swap (now : Nat) (config : ContractConfig) (condition : SwapCondition)
    (current_price : PriceData) : Except String SwapExecution :=
  let swap_params : SwapParams :=
    { token_in := condition.source_asset, token_out := condition.destination_asset,
      amount_in := condition.amount_to_swap, amount_out_min := condition.min_amount_out,
      to_address := condition.owner, deadline := now + 300 }
  let swap_result := StellarDexIntegration.execute_swap now config.dex_config swap_params
  let execution := SwapExecution.new now condition.id current_price.price
    swap_result.amount_in swap_result.amount_out swap_result.gas_used
    swap_result.transaction_hash
  if swap_result.success = false then
    Except.error (swap_result.error_message.getD "swap_failed")
  else Except.ok execution

/-- Embeds `SmartSwap::check_and_execute_condition`.  After the `?` on
`Self::execute_swap`, the source tests `execution_result.success` — a field
`SwapExecution` does not have; since `execute_swap` returns `Ok` exactly when
the DEX `SwapResult.success` flag is true, the success branch is the branch
taken, and it is the one modelled. -/
def check_and_execute_condition (now : Nat) (s : ContractState) (condition_id : Nat) :
    Except String (Option SwapExecution × ContractState) :=
  match check_not_paused s with
  | Except.error e => Except.error e
  | Except.ok _ =>
  match mapGet s.conditions condition_id with
  | none => Except.error "condition_not_found"
  | some condition =>
  match condition.is_valid now with
  | Except.error e => Except.error e
  | Except.ok _ =>
  match s.config with
  | none => Except.error "not_initialized"
  | some config =>
  let price_result := PriceOracleClient.get_price now config.oracle_config condition.source_asset
  if price_result.success = false then
    Except.error (price_result.error_message.getD "price_unavailable")
  else
  match price_result.price_data with
  | none => Except.error "no_price_data"
  | some current_price =>
  if condition.should_execute current_price.price = false then
    Except.ok (none,
      { s with conditions :=
          mapSet s.conditions condition_id ({ condition with last_check := now }) })
  else
  match SmartSwap.execute_swap now config condition current_price with
  | Except.error e => Except.error e
  | Except.ok execution_result =>
    let condition' := condition.update_execution now execution_result
    let s1 := store_execution_record s condition_id execution_result
    let s2 := { s1 with stats := { s1.stats with
        total_conditions_executed := s1.stats.total_conditions_executed + 1,
        total_volume_swapped := s1.stats.total_volume_swapped + execution_result.amount_in,
        active_conditions_count :=
          if condition'.status = SwapStatus.Executed then
            s1.stats.active_conditions_count - 1
          else s1.stats.active_conditions_count } }
    Except.ok (some execution_result,
      { s2 with conditions := mapSet s2.conditions condition_id condition' })

/-- Embeds `SmartSwap::cancel_condition` (`caller.require_auth()` is a no-op; note the
source never consults the pause flag here).  The active-condition counter
decrement is the source's `saturating_sub`. -/
def cancel_condition (s : ContractState) (caller condition_id : Nat) :
    Except String ContractState :=
  match mapGet s.conditions condition_id with
  | none => Except.error "condition_not_found"
  | some condition =>
  if condition.owner ≠ caller then Except.error "not_owner"
  else
  match condition.status with
  | SwapStatus.Active =>
      Except.ok { s with
        conditions := mapSet s.conditions condition_id condition.cancel,
        stats := { s.stats with
          active_conditions_count := s.stats.active_conditions_count - 1 } }
  | _ => Except.error "cannot_cancel"

/-- The loop body of `SmartSwap::cleanup_expired_conditions`: walks the
conditions in iteration order, expiring up to `limit` conditions that are
`Active` and past `expires_at`, threading the cleaned counter. -/
def cleanup_loop (now limit : Nat) :
    List (Nat × SwapCondition) → Nat → List (Nat × SwapCondition) × Nat
  | [], cleaned => ([], cleaned)
  | (condition_id, condition) :: rest, cleaned =>
    if limit ≤ cleaned then ((condition_id, condition) :: rest, cleaned)
    else if condition.expires_at < now ∧ condition.status = SwapStatus.Active then
      ((condition_id, condition.mark_as_expired now) ::
          (cleanup_loop now limit rest (cleaned + 1)).1,
        (cleanup_loop now limit rest (cleaned + 1)).2)
    else
      ((condition_id, condition) :: (cleanup_loop now limit rest cleaned).1,
        (cleanup_loop now limit rest cleaned).2)

/-- Embeds `SmartSwap::cleanup_expired_conditions`: when nothing was cleaned the
storage is not rewritten (the state is returned unchanged); otherwise the
updated conditions are stored and the active counter is decremented
(`saturating_sub`) by the cleaned count. -/
def cleanup_expired_conditions (now : Nat) (s : ContractState) (limit : Nat) :
    Nat × ContractState :=
  let result := cleanup_loop now limit s.conditions 0
  if 0 < result.2 then
    (result.2,
      { s with
        conditions := result.1,
        stats := { s.stats with
          active_conditions_count := s.stats.active_conditions_count - result.2 } })
  else (result.2, s)

/-- Modelled from the spec (§4.2): `should_execute` with unbounded integer
arithmetic — the comparison point for the overflow analysis of the
source-derived `SwapCondition.should_execute`. -/
def should_execute_spec (c : SwapCondition) (current_price : Nat) : Bool :=
  match c.condition_type with
  | SwapConditionType.PercentageIncrease percentage =>
      decide (c.reference_price + c.reference_price * percentage / 100 ≤ current_price)
  | SwapConditionType.PercentageDecrease percentage =>
      decide (current_price ≤ c.reference_price - c.reference_price * percentage / 100)
  | SwapConditionType.TargetPrice target =>
      decide (target - target / 1000 ≤ current_price) &&
        decide (current_price ≤ target + target / 1000)
  | SwapConditionType.PriceAbove threshold => decide (threshold < current_price)
  | SwapConditionType.PriceBelow threshold => decide (current_price < threshold)

/-- Modelled from the spec (§4.3): the constant-product quote with unbounded
integer arithmetic — the comparison point for the overflow analysis of the
source-derived `calculate_swap_output`. -/
def calculate_swap_output_spec (pool_info : PoolInfo) (amount_in : Nat)
    (is_token_a_input : Bool) : Except String (Nat × Nat) :=
  let reserves :=
    match is_token_a_input with
    | true => (pool_info.reserve_a, pool_info.reserve_b)
    | false => (pool_info.reserve_b, pool_info.reserve_a)
  let reserve_in := reserves.1
  let reserve_out := reserves.2
  if reserve_in = 0 ∨ reserve_out = 0 then Except.error "insufficient_liquidity"
  else
    let amount_in_with_fee := amount_in * (10000 - pool_info.fee_rate) / 10000
    let denominator := reserve_in + amount_in_with_fee
    if denominator = 0 then Except.error "calculation_error"
    else
      Except.ok (amount_in_with_fee * reserve_out / denominator,
        if 0 < reserve_in then amount_in * 10000 / reserve_in else 10000)

/-- No-overflow side condition for `SwapCondition.should_execute`: every `u64`
product and sum in the evaluated arm fits in 64 bits. -/
def cond_type_fits (c : SwapCondition) : Prop :=
  match c.condition_type with
  | SwapConditionType.PercentageIncrease percentage =>
      c.reference_price * percentage < U64 ∧
        c.reference_price + c.reference_price * percentage / 100 < U64
  | SwapConditionType.PercentageDecrease percentage =>
      c.reference_price * percentage < U64
  | SwapConditionType.TargetPrice target => target + target / 1000 < U64
  | SwapConditionType.PriceAbove _ => True
  | SwapConditionType.PriceBelow _ => True

instance (c : SwapCondition) : Decidable (cond_type_fits c) := by
  unfold cond_type_fits
  cases c.condition_type <;> infer_instance

/-- No-overflow side condition for `calculate_swap_output`: every `u64` product
and sum fits in 64 bits and the price impact fits the `as u32` cast. -/
def swap_output_fits (pool_info : PoolInfo) (amount_in : Nat)
    (is_token_a_input : Bool) : Prop :=
  let reserves :=
    match is_token_a_input with
    | true => (pool_info.reserve_a, pool_info.reserve_b)
    | false => (pool_info.reserve_b, pool_info.reserve_a)
  let reserve_in := reserves.1
  let reserve_out := reserves.2
  amount_in * (10000 - pool_info.fee_rate) < U64 ∧
  amount_in * (10000 - pool_info.fee_rate) / 10000 * reserve_out < U64 ∧
  reserve_in + amount_in * (10000 - pool_info.fee_rate) / 10000 < U64 ∧
  amount_in * 10000 < U64 ∧
  amount_in * 10000 / reserve_in < U32

instance (p : PoolInfo) (a : Nat) (b : Bool) : Decidable (swap_output_fits p a b) := by
  unfold swap_output_fits
  infer_instance

/-- The default `ContractConfig` produced by `SmartSwap::initialize` (admin 0,
oracle address 1, DEX address 2). -/
def default_contract_config : ContractConfig :=
  { admin := 0
    oracle_config := OracleConfigManager.create_default_config 1
    dex_config := DexConfigManager.create_default_config 2
    paused := false
    max_conditions_per_user := 50
    min_condition_value := 100000000 }

/-- The contract state right after `SmartSwap::initialize`. -/
def init_state : ContractState :=
  { config := some default_contract_config
    conditions := []
    userConditions := []
    executions := []
    nextConditionId := 1
    supportedAssets := []
    stats := ⟨0, 0, 0, 0, 0⟩ }

/-- The target-price condition of `test.rs` (`TargetPrice(120000)`). -/
def target_price_condition : SwapCondition :=
  { id := 1, owner := 1, source_asset := "XLM", destination_asset := "USDC",
    condition_type := SwapConditionType.TargetPrice 120000,
    amount_to_swap := 1000000000, min_amount_out := 900000000, max_slippage := 500,
    reference_price := 100000, created_at := 0, expires_at := 3600,
    status := SwapStatus.Active, last_check := 0, execution_count := 0,
    max_executions := 1 }

/-- A stored condition with `reference_price = 2^58` and
`PercentageIncrease(100)`: the `u64` product `reference_price * percentage`
overflows. -/
def overflow_condition : SwapCondition :=
  { id := 1, owner := 1, source_asset := "XLM", destination_asset := "USDC",
    condition_type := SwapConditionType.PercentageIncrease 100,
    amount_to_swap := 1000000000, min_amount_out := 900000000, max_slippage := 500,
    reference_price := 288230376151711744, created_at := 0, expires_at := 3600,
    status := SwapStatus.Active, last_check := 0, execution_count := 0,
    max_executions := 1 }

/-- A stored Active XLM→USDC condition whose trigger fires at the simulated
oracle price 120000 but whose `min_amount_out` exceeds the DEX quote, so the
external swap reports failure (`slippage_exceeded`). -/
def slippage_fail_condition : SwapCondition :=
  { id := 1, owner := 7, source_asset := "XLM", destination_asset := "USDC",
    condition_type := SwapConditionType.TargetPrice 120000,
    amount_to_swap := 10000000, min_amount_out := 9500000, max_slippage := 500,
    reference_price := 120000, created_at := 0, expires_at := 1000000,
    status := SwapStatus.Active, last_check := 0, execution_count := 0,
    max_executions := 1 }

/-- An initialized state storing `slippage_fail_condition` under id 1. -/
def slippage_fail_state : ContractState :=
  { config := some default_contract_config
    conditions := [(1, slippage_fail_condition)]
    userConditions := [(7, [1])]
    executions := []
    nextConditionId := 2
    supportedAssets := []
    stats := ⟨1, 0, 0, 0, 1⟩ }

/-- A valid creation request whose BTC reference price (45_000_000_000) makes
`amount_to_swap * reference_price` overflow `u64`. -/
def big_price_request : CreateSwapRequest :=
  { source_asset := "BTC", destination_asset := "USDC",
    condition_type := SwapConditionType.TargetPrice 50000,
    amount_to_swap := 2000000000000, max_slippage := 1,
    expires_at := 5000, max_executions := 1 }

/-- A small valid creation request (100 XLM, 5% slippage, 24h lifetime). -/
def small_request : CreateSwapRequest :=
  { source_asset := "XLM", destination_asset := "USDC",
    condition_type := SwapConditionType.PercentageIncrease 10,
    amount_to_swap := 1000000000, max_slippage := 500,
    expires_at := 86450, max_executions := 1 }

/-- An Active condition expiring at time 10 (already expired at time 20). -/
def expired_condition (i : Nat) : SwapCondition :=
  { id := i, owner := 3, source_asset := "XLM", destination_asset := "USDC",
    condition_type := SwapConditionType.PriceAbove 1,
    amount_to_swap := 10000000, min_amount_out := 9000000, max_slippage := 100,
    reference_price := 120000, created_at := 0, expires_at := 10,
    status := SwapStatus.Active, last_check := 0, execution_count := 0,
    max_executions := 1 }

/-- A state holding five expired-but-still-Active conditions. -/
def five_expired_state : ContractState :=
  { config := some default_contract_config
    conditions := [(1, expired_condition 1), (2, expired_condition 2),
      (3, expired_condition 3), (4, expired_condition 4), (5, expired_condition 5)]
    userConditions := [(3, [1, 2, 3, 4, 5])]
    executions := []
    nextConditionId := 6
    supportedAssets := []
    stats := ⟨5, 0, 0, 0, 5⟩ }

/-- An Active XLM condition whose `TargetPrice(200000)` trigger does not fire
at the simulated oracle price 120000. -/
def no_trigger_condition : SwapCondition :=
  { id := 1, owner := 7, source_asset := "XLM", destination_asset := "USDC",
    condition_type := SwapConditionType.TargetPrice 200000,
    amount_to_swap := 1000000000, min_amount_out := 950000000, max_slippage := 500,
    reference_price := 120000, created_at := 0, expires_at := 1000000,
    status := SwapStatus.Active, last_check := 0, execution_count := 0,
    max_executions := 1 }

/-- An initialized state storing `no_trigger_condition` under id 1. -/
def no_trigger_state : ContractState :=
  { config := some default_contract_config
    conditions := [(1, no_trigger_condition)]
    userConditions := [(7, [1])]
    executions := []
    nextConditionId := 2
    supportedAssets := []
    stats := ⟨1, 0, 0, 0, 1⟩ }

/-- Embeds `no_trigger_state` with the contract paused. -/
def paused_state : ContractState :=
  { no_trigger_state with
    config := some { default_contract_config with paused := true } }

/-- The condition created by `create_swap_condition 50 init_state 7 small_request`. -/
def small_request_condition : SwapCondition :=
  { id := 1, owner := 7, source_asset := "XLM", destination_asset := "USDC",
    condition_type := SwapConditionType.PercentageIncrease 10,
    amount_to_swap := 1000000000, min_amount_out := 950000000, max_slippage := 500,
    reference_price := 120000, created_at := 50, expires_at := 86450,
    status := SwapStatus.Active, last_check := 50, execution_count := 0,
    max_executions := 1 }

/-- The state produced by `create_swap_condition 50 init_state 7 small_request`. -/
def small_request_state : ContractState :=
  { config := some default_contract_config
    conditions := [(1, small_request_condition)]
    userConditions := [(7, [1])]
    executions := []
    nextConditionId := 2
    supportedAssets := []
    stats := ⟨1, 0, 0, 0, 1⟩ }

/-- The pool of the spec's AMM-quote example: reserves (10_000_000, 1_200_000),
fee 30 basis points. -/
def c6_pool : PoolInfo :=
  { pool_address := 0, token_a := "A", token_b := "B",
    reserve_a := 10000000, reserve_b := 1200000, total_supply := 11200000,
    fee_rate := 30, last_updated := 0 }

/-- A sample execution record (the `update_execution` argument is unused). -/
def sample_execution : SwapExecution :=
  ⟨1, 5, 120000, 10, 10, 0, 0, "tx"⟩

/-- The per-entry relation established by `cleanup_loop`: an entry is either
unchanged, or it was an expired Active condition and only its status changed
to `Expired`. -/
def cleanup_rel (now : Nat) (e e' : Nat × SwapCondition) : Prop :=
  e'.1 = e.1 ∧ (e' = e ∨
    (e.2.status = SwapStatus.Active ∧ e.2.expires_at < now ∧
      e'.2 = { e.2 with status := SwapStatus.Expired }))

/-- Recognizes an (old entry, new entry) pair that `cleanup_loop` cleaned. -/
def cleaned_pair (p : (Nat × SwapCondition) × (Nat × SwapCondition)) : Bool :=
  decide (p.1.2.status = SwapStatus.Active) && decide (p.2.2.status = SwapStatus.Expired)

theorem mapGet_mapSet_self {α : Type} (m : List (Nat × α)) (k : Nat) (v : α) :
    mapGet (mapSet m k v) k = some v := by
  induction m with
  | nil => simp [mapGet, mapSet]
  | cons hd tl ih =>
    obtain ⟨k', v'⟩ := hd
    by_cases hk : k' = k
    · simp [mapSet, hk, mapGet]
    · simp [mapSet, hk, mapGet, ih]

theorem validate_ok_bounds (r : CreateSwapRequest) (now : Nat)
    (h : r.validate now = Except.ok ()) :
    MIN_SWAP_AMOUNT ≤ r.amount_to_swap ∧ r.amount_to_swap ≤ MAX_SWAP_AMOUNT ∧
    MIN_SLIPPAGE_BASIS_POINTS ≤ r.max_slippage ∧
    r.max_slippage ≤ MAX_SLIPPAGE_BASIS_POINTS := by
  unfold CreateSwapRequest.validate at h
  split_ifs at h <;> first
    | exact absurd h (by simp)
    | exact ⟨by omega, by omega, by omega, by omega⟩

theorem validate_price_ok_ne_zero (now : Nat) (pd : PriceData) (cfg : OracleConfig)
    (h : PriceOracleClient.validate_price_for_swap now pd cfg = Except.ok ()) :
    pd.price ≠ 0 := by
  unfold PriceOracleClient.validate_price_for_swap at h
  split_ifs at h <;> simp_all

theorem calculate_min_amount_out_le (amount_in reference_price max_slippage : Nat) :
    calculate_min_amount_out amount_in reference_price max_slippage ≤ amount_in := by
  unfold calculate_min_amount_out wmul
  have hbase : amount_in * reference_price % U64 / reference_price ≤ amount_in := by
    rcases Nat.eq_zero_or_pos reference_price with h0 | hpos
    · simp [h0]
    · exact le_trans (Nat.div_le_div_right (Nat.mod_le _ _))
        (le_of_eq (Nat.mul_div_cancel _ hpos))
  refine le_trans (Nat.div_le_div_right (Nat.mod_le _ _)) (le_trans ?_ hbase)
  calc amount_in * reference_price % U64 / reference_price * (10000 - max_slippage) / 10000
      ≤ amount_in * reference_price % U64 / reference_price * 10000 / 10000 :=
        Nat.div_le_div_right (Nat.mul_le_mul (le_refl _) (Nat.sub_le _ _))
    _ = amount_in * reference_price % U64 / reference_price :=
        Nat.mul_div_cancel _ (by norm_num)

theorem calculate_min_amount_out_eq (amount_in reference_price max_slippage : Nat)
    (href : reference_price ≠ 0) (hfit : amount_in * reference_price < U64)
    (hamt : amount_in ≤ MAX_SWAP_AMOUNT) :
    calculate_min_amount_out amount_in reference_price max_slippage =
      amount_in * (10000 - max_slippage) / 10000 := by
  unfold calculate_min_amount_out wmul
  rw [Nat.mod_eq_of_lt hfit, Nat.mul_div_cancel _ (Nat.pos_of_ne_zero href)]
  dsimp only
  have hle : amount_in * (10000 - max_slippage) ≤ MAX_SWAP_AMOUNT * 10000 :=
    Nat.mul_le_mul hamt (Nat.sub_le _ _)
  rw [Nat.mod_eq_of_lt (lt_of_le_of_lt hle (by norm_num [MAX_SWAP_AMOUNT, U64]))]

/-- Claim C1 (code-bug evidence): at `slippage_fail_state` the stored Active
condition's trigger fires at the simulated oracle price 120000, the external
DEX swap reports failure (`slippage_exceeded`, since the quote output is far
below `min_amount_out`), and `check_and_execute_condition` returns that error
(propagated by the `?` on `SmartSwap::execute_swap`) instead of marking the
condition `Failed` and returning the failed result wrapped in `Some`; the
stored condition is left `Active` and untouched. -/
theorem C1_swap_failure_returns_error :
    slippage_fail_condition.should_execute 120000 = true
  ∧ (StellarDexIntegration.execute_swap 100 default_contract_config.dex_config
      { token_in := "XLM", token_out := "USDC", amount_in := 10000000,
        amount_out_min := 9500000, to_address := 7, deadline := 400 }).success = false
  ∧ check_and_execute_condition 100 slippage_fail_state 1 =
      Except.error "slippage_exceeded"
  ∧ get_condition slippage_fail_state 1 = some slippage_fail_condition
  ∧ slippage_fail_condition.status = SwapStatus.Active :=
  ⟨by decide, by decide, by rfl, by decide, by decide⟩

/-- Claim C2 counterexample: the claim asserts `should_execute(119880)` is
false for `TargetPrice(120000)`, but the source's tolerance band is inclusive
(`current_price >= target - tolerance`), so 119880 = 120000 - 120 fires. -/
theorem C2_counterexample_119880_fires :
    target_price_condition.should_execute 119880 = true := by decide

/-- Claim C2 (amended): for `TargetPrice(120000)` with tolerance
`120000 / 1000 = 120`, `should_execute` is true at 119880, 119900 and 120100,
and false at 120121 (the inclusive band is `[119880, 120120]`). -/
theorem C2_target_price_tolerance :
    target_price_condition.should_execute 119880 = true
  ∧ target_price_condition.should_execute 119900 = true
  ∧ target_price_condition.should_execute 120100 = true
  ∧ target_price_condition.should_execute 120121 = false := by decide

/-- Claim C5: `update_execution` on an Active condition increments
`execution_count`, sets `last_check` to the current time, and transitions to
`Executed` precisely when `max_executions > 0` and the new count reaches it;
with `max_executions = 0` the status stays `Active`. -/
theorem C5_update_execution (now : Nat) (c : SwapCondition) (ex : SwapExecution)
    (h : c.status = SwapStatus.Active) :
    (c.update_execution now ex).execution_count = c.execution_count + 1
  ∧ (c.update_execution now ex).last_check = now
  ∧ ((c.update_execution now ex).status = SwapStatus.Executed ↔
      0 < c.max_executions ∧ c.max_executions ≤ c.execution_count + 1)
  ∧ (c.max_executions = 0 → (c.update_execution now ex).status = SwapStatus.Active) := by
  unfold SwapCondition.update_execution
  dsimp only
  split
  · next hcond =>
      refine ⟨rfl, rfl, by simp [hcond], fun h0 => ?_⟩
      omega
  · next hcond =>
      exact ⟨rfl, rfl, by simp [h, hcond], fun _ => h⟩

/-- Witness for C5 at a concrete Active condition. -/
theorem C5_update_execution_witness :
    target_price_condition.status = SwapStatus.Active
  ∧ ((target_price_condition.update_execution 5 sample_execution).execution_count =
        target_price_condition.execution_count + 1
    ∧ (target_price_condition.update_execution 5 sample_execution).last_check = 5
    ∧ ((target_price_condition.update_execution 5 sample_execution).status =
          SwapStatus.Executed ↔
        0 < target_price_condition.max_executions ∧
          target_price_condition.max_executions ≤
            target_price_condition.execution_count + 1)
    ∧ (target_price_condition.max_executions = 0 →
        (target_price_condition.update_execution 5 sample_execution).status =
          SwapStatus.Active)) :=
  ⟨by decide, C5_update_execution 5 target_price_condition sample_execution (by decide)⟩

/-- Claim C6: the AMM quote for reserves (10_000_000, 1_200_000), fee 30 bp and
`amount_in = 1000`: the fee-adjusted input is `floor(1000*9970/10000) = 997`
and the output is `floor(997*1_200_000/(10_000_000+997)) = 119`, with price
impact `floor(1000*10000/10_000_000) = 1` bp, all by floor division. -/
theorem C6_amm_quote_example :
    calculate_swap_output c6_pool 1000 true = Except.ok (119, 1)
  ∧ 1000 * 9970 / 10000 = 997
  ∧ 997 * 1200000 / (10000000 + 997) = 119 :=
  ⟨by rfl, by decide, by decide⟩

theorem calculate_swap_output_core_agreement (rIn rOut fee amount_in : Nat)
    (hf1 : amount_in * (10000 - fee) < U64)
    (hf2 : amount_in * (10000 - fee) / 10000 * rOut < U64)
    (hf3 : rIn + amount_in * (10000 - fee) / 10000 < U64)
    (hf4 : amount_in * 10000 < U64)
    (hf5 : amount_in * 10000 / rIn < U32) :
    (if rIn = 0 ∨ rOut = 0 then (Except.error "insufficient_liquidity" : Except String (Nat × Nat))
     else if wadd rIn (wmul amount_in (10000 - fee) / 10000) = 0 then
       Except.error "calculation_error"
     else Except.ok
       (wmul (wmul amount_in (10000 - fee) / 10000) rOut /
          wadd rIn (wmul amount_in (10000 - fee) / 10000),
        if 0 < rIn then wmul amount_in 10000 / rIn % U32 else 10000)) =
    (if rIn = 0 ∨ rOut = 0 then Except.error "insufficient_liquidity"
     else if rIn + amount_in * (10000 - fee) / 10000 = 0 then Except.error "calculation_error"
     else Except.ok
       (amount_in * (10000 - fee) / 10000 * rOut / (rIn + amount_in * (10000 - fee) / 10000),
        if 0 < rIn then amount_in * 10000 / rIn else 10000)) := by
  rw [show wmul amount_in (10000 - fee) = amount_in * (10000 - fee) from Nat.mod_eq_of_lt hf1]
  rw [show wmul (amount_in * (10000 - fee) / 10000) rOut =
        amount_in * (10000 - fee) / 10000 * rOut from Nat.mod_eq_of_lt hf2]
  rw [show wadd rIn (amount_in * (10000 - fee) / 10000) =
        rIn + amount_in * (10000 - fee) / 10000 from Nat.mod_eq_of_lt hf3]
  rw [show wmul amount_in 10000 = amount_in * 10000 from Nat.mod_eq_of_lt hf4]
  rw [Nat.mod_eq_of_lt hf5]

/-- Claim C3 counterexample: with `reference_price = 2^58` and
`PercentageIncrease(100)` — syntactically well-formed `u64` inputs — the
product `reference_price * percentage` exceeds `2^64`; the wrapped threshold
drops below the mathematically intended one, so `should_execute` fires at a
price (4*10^17) where the unbounded-arithmetic evaluation does not. -/
theorem C3_counterexample_overflow :
    U64 ≤ overflow_condition.reference_price * 100
  ∧ overflow_condition.should_execute 400000000000000000 = true
  ∧ should_execute_spec overflow_condition 400000000000000000 = false := by decide

/-- Claim C3 (amended): whenever every `u64` product and sum in the evaluated
arm fits in 64 bits, `should_execute` and `calculate_swap_output` compute
exactly the unbounded-integer formulas (subtractions saturate and never wrap
unconditionally); without those bounds the multiplications can overflow. -/
theorem C3_no_overflow_agreement (c : SwapCondition) (p : Nat) (pool : PoolInfo)
    (amount_in : Nat) (is_a : Bool)
    (h1 : cond_type_fits c) (h2 : swap_output_fits pool amount_in is_a) :
    c.should_execute p = should_execute_spec c p
  ∧ calculate_swap_output pool amount_in is_a = calculate_swap_output_spec pool amount_in is_a := by
  constructor
  · unfold SwapCondition.should_execute should_execute_spec
    unfold cond_type_fits at h1
    cases hct : c.condition_type with
    | PercentageIncrease percentage =>
        rw [hct] at h1
        dsimp only
        rw [show wmul c.reference_price percentage = c.reference_price * percentage from
              Nat.mod_eq_of_lt h1.1]
        rw [show wadd c.reference_price (c.reference_price * percentage / 100) =
              c.reference_price + c.reference_price * percentage / 100 from
              Nat.mod_eq_of_lt h1.2]
    | PercentageDecrease percentage =>
        rw [hct] at h1
        dsimp only
        rw [show wmul c.reference_price percentage = c.reference_price * percentage from
              Nat.mod_eq_of_lt h1]
    | TargetPrice target =>
        rw [hct] at h1
        dsimp only
        rw [show wadd target (target / 1000) = target + target / 1000 from
              Nat.mod_eq_of_lt h1]
    | PriceAbove threshold => rfl
    | PriceBelow threshold => rfl
  · cases is_a with
    | true =>
        unfold calculate_swap_output calculate_swap_output_spec
        unfold swap_output_fits at h2
        dsimp only at h2 ⊢
        exact calculate_swap_output_core_agreement pool.reserve_a pool.reserve_b
          pool.fee_rate amount_in h2.1 h2.2.1 h2.2.2.1 h2.2.2.2.1 h2.2.2.2.2
    | false =>
        unfold calculate_swap_output calculate_swap_output_spec
        unfold swap_output_fits at h2
        dsimp only at h2 ⊢
        exact calculate_swap_output_core_agreement pool.reserve_b pool.reserve_a
          pool.fee_rate amount_in h2.1 h2.2.1 h2.2.2.1 h2.2.2.2.1 h2.2.2.2.2

/-- Witness for C3 at a concrete in-bounds condition and pool. -/
theorem C3_no_overflow_agreement_witness :
    cond_type_fits target_price_condition
  ∧ swap_output_fits c6_pool 1000 true
  ∧ (target_price_condition.should_execute 119900 =
        should_execute_spec target_price_condition 119900
    ∧ calculate_swap_output c6_pool 1000 true = calculate_swap_output_spec c6_pool 1000 true) :=
  ⟨by decide, by decide,
    C3_no_overflow_agreement target_price_condition 119900 c6_pool 1000 true
      (by decide) (by decide)⟩

/-- Claim C8: for a stored condition, `cancel_condition` by a non-owner fails
with `not_owner` (and, the model returning no new state on error, mutates
nothing); by the owner it succeeds exactly from `Active`, storing the
`Cancelled` condition and decrementing the active counter, and fails with
`cannot_cancel` from any other status. -/
theorem C8_cancel_owner_only (s : ContractState) (caller condition_id : Nat)
    (c : SwapCondition) (hc : mapGet s.conditions condition_id = some c) :
    (caller ≠ c.owner → cancel_condition s caller condition_id = Except.error "not_owner")
  ∧ (caller = c.owner → c.status = SwapStatus.Active →
      cancel_condition s caller condition_id = Except.ok
        { s with conditions := mapSet s.conditions condition_id c.cancel,
                 stats := { s.stats with
                   active_conditions_count := s.stats.active_conditions_count - 1 } })
  ∧ (caller = c.owner → c.status ≠ SwapStatus.Active →
      cancel_condition s caller condition_id = Except.error "cannot_cancel") := by
  unfold cancel_condition
  simp only [hc]
  refine ⟨fun hne => ?_, fun heq hact => ?_, fun heq hne => ?_⟩
  · rw [if_pos (fun heq => hne heq.symm)]
  · rw [if_neg (fun hne => hne heq.symm), hact]
  · rw [if_neg (fun hne' => hne' heq.symm)]
    cases hst : c.status <;> simp_all

/-- Witness for C8: the owner (7) cancels the stored Active condition. -/
theorem C8_cancel_owner_only_witness :
    mapGet slippage_fail_state.conditions 1 = some slippage_fail_condition
  ∧ ((7 ≠ slippage_fail_condition.owner →
        cancel_condition slippage_fail_state 7 1 = Except.error "not_owner")
    ∧ (7 = slippage_fail_condition.owner → slippage_fail_condition.status = SwapStatus.Active →
        cancel_condition slippage_fail_state 7 1 = Except.ok
          { slippage_fail_state with
            conditions := mapSet slippage_fail_state.conditions 1 slippage_fail_condition.cancel,
            stats := { slippage_fail_state.stats with
              active_conditions_count :=
                slippage_fail_state.stats.active_conditions_count - 1 } })
    ∧ (7 = slippage_fail_condition.owner → slippage_fail_condition.status ≠ SwapStatus.Active →
        cancel_condition slippage_fail_state 7 1 = Except.error "cannot_cancel")) :=
  ⟨by decide, C8_cancel_owner_only slippage_fail_state 7 1 slippage_fail_condition (by decide)⟩

/-- Claim C10: `cancel_condition` never consults the pause flag — with the
contract paused, the owner of a stored Active condition still cancels it (the
stored status becomes `Cancelled`), while `create_swap_condition` and
`check_and_execute_condition` both reject with `contract_paused`. -/
theorem C10_cancel_ignores_pause (now : Nat) (s : ContractState) (cfg : ContractConfig)
    (condition_id : Nat) (c : SwapCondition) (caller : Nat) (req : CreateSwapRequest)
    (other_id : Nat)
    (hcfg : s.config = some cfg) (hp : cfg.paused = true)
    (hc : mapGet s.conditions condition_id = some c)
    (hact : c.status = SwapStatus.Active) :
    cancel_condition s c.owner condition_id = Except.ok
      { s with conditions := mapSet s.conditions condition_id c.cancel,
               stats := { s.stats with
                 active_conditions_count := s.stats.active_conditions_count - 1 } }
  ∧ mapGet (mapSet s.conditions condition_id c.cancel) condition_id =
      some { c with status := SwapStatus.Cancelled }
  ∧ create_swap_condition now s caller req = Except.error "contract_paused"
  ∧ check_and_execute_condition now s other_id = Except.error "contract_paused" := by
  refine ⟨?_, ?_, ?_, ?_⟩
  · unfold cancel_condition
    simp only [hc]
    rw [if_neg (fun hne => hne rfl), hact]
  · rw [mapGet_mapSet_self]
    rfl
  · unfold create_swap_condition check_not_paused
    rw [hcfg]
    simp [hp]
  · unfold check_and_execute_condition check_not_paused
    rw [hcfg]
    simp [hp]

/-- Witness for C10 at the concrete paused state. -/
theorem C10_cancel_ignores_pause_witness :
    paused_state.config = some { default_contract_config with paused := true }
  ∧ ({ default_contract_config with paused := true }).paused = true
  ∧ mapGet paused_state.conditions 1 = some no_trigger_condition
  ∧ no_trigger_condition.status = SwapStatus.Active
  ∧ (cancel_condition paused_state no_trigger_condition.owner 1 = Except.ok
      { paused_state with
        conditions := mapSet paused_state.conditions 1 no_trigger_condition.cancel,
        stats := { paused_state.stats with
          active_conditions_count := paused_state.stats.active_conditions_count - 1 } }
    ∧ mapGet (mapSet paused_state.conditions 1 no_trigger_condition.cancel) 1 =
        some { no_trigger_condition with status := SwapStatus.Cancelled }
    ∧ create_swap_condition 100 paused_state 7 small_request =
        Except.error "contract_paused"
    ∧ check_and_execute_condition 100 paused_state 1 = Except.error "contract_paused") :=
  ⟨by decide, by decide, by decide, by decide,
    C10_cancel_ignores_pause 100 paused_state { default_contract_config with paused := true }
      1 no_trigger_condition 7 small_request 1 (by decide) (by decide) (by decide) (by decide)⟩

/-- Claim C9: when a stored, valid condition's trigger does not fire at the
fetched price, `check_and_execute_condition` returns `Ok(None)` and the new
state differs from the old only in that the stored condition's `last_check` is
set to `now` — status, counts, every other field, the execution history and the
stats are untouched. -/
theorem C9_no_trigger_frame (now : Nat) (s : ContractState) (condition_id : Nat)
    (c : SwapCondition) (cfg : ContractConfig) (pd : PriceData)
    (hc : mapGet s.conditions condition_id = some c)
    (hcfg : s.config = some cfg)
    (hpause : cfg.paused = false)
    (hvalid : c.is_valid now = Except.ok ())
    (hprice : PriceOracleClient.get_price now cfg.oracle_config c.source_asset =
        ⟨true, some pd, none⟩)
    (hexec : c.should_execute pd.price = false) :
    check_and_execute_condition now s condition_id = Except.ok (none,
      { s with conditions :=
          mapSet s.conditions condition_id ({ c with last_check := now }) }) := by
  unfold check_and_execute_condition check_not_paused
  simp only [hcfg, hpause, hc, hvalid, hprice, hexec]
  simp

/-- Witness for C9: `TargetPrice(200000)` does not fire at the oracle price
120000; only `last_check` changes. -/
theorem C9_no_trigger_frame_witness :
    mapGet no_trigger_state.conditions 1 = some no_trigger_condition
  ∧ no_trigger_state.config = some default_contract_config
  ∧ default_contract_config.paused = false
  ∧ no_trigger_condition.is_valid 100 = Except.ok ()
  ∧ PriceOracleClient.get_price 100 default_contract_config.oracle_config
      no_trigger_condition.source_asset = ⟨true, some ⟨"XLM", 120000, 100, 85, 5⟩, none⟩
  ∧ no_trigger_condition.should_execute 120000 = false
  ∧ check_and_execute_condition 100 no_trigger_state 1 = Except.ok (none,
      { no_trigger_state with
        conditions :=
          mapSet no_trigger_state.conditions 1 ({ no_trigger_condition with last_check := 100 }) }) :=
  ⟨by decide, by decide, by decide, by rfl, by rfl, by decide,
    C9_no_trigger_frame 100 no_trigger_state 1 no_trigger_condition
      default_contract_config ⟨"XLM", 120000, 100, 85, 5⟩
      (by decide) (by decide) (by decide) (by rfl) (by rfl) (by decide)⟩

theorem cleaned_pair_self_false (e : Nat × SwapCondition) : cleaned_pair (e, e) = false := by
  unfold cleaned_pair
  cases h : e.2.status <;> simp [h]

theorem countP_cleaned_zip_self (l : List (Nat × SwapCondition)) :
    List.countP cleaned_pair (l.zip l) = 0 := by
  induction l with
  | nil => rfl
  | cons hd tl ih =>
      simp [List.zip_cons_cons, List.countP_cons, cleaned_pair_self_false, ih]

theorem cleanup_loop_spec (now limit : Nat) (l : List (Nat × SwapCondition)) (acc : Nat)
    (hacc : acc ≤ limit) :
    (cleanup_loop now limit l acc).2 ≤ limit
  ∧ acc ≤ (cleanup_loop now limit l acc).2
  ∧ List.Forall₂ (cleanup_rel now) l (cleanup_loop now limit l acc).1
  ∧ List.countP cleaned_pair (l.zip (cleanup_loop now limit l acc).1)
      = (cleanup_loop now limit l acc).2 - acc := by
  induction l generalizing acc with
  | nil =>
      simp only [cleanup_loop]
      exact ⟨hacc, le_refl _, List.Forall₂.nil, by simp⟩
  | cons hd tl ih =>
      obtain ⟨cid, c⟩ := hd
      by_cases hlim : limit ≤ acc
      · simp only [cleanup_loop, if_pos hlim]
        refine ⟨hacc, le_refl _, ?_, ?_⟩
        · exact List.forall₂_same.2 (fun e _ => ⟨rfl, Or.inl rfl⟩)
        · rw [Nat.sub_self]
          exact countP_cleaned_zip_self _
      · by_cases hcl : c.expires_at < now ∧ c.status = SwapStatus.Active
        · simp only [cleanup_loop, if_neg hlim, if_pos hcl]
          obtain ⟨ih1, ih2, ih3, ih4⟩ := ih (acc + 1) (by omega)
          refine ⟨ih1, by omega, ?_, ?_⟩
          · refine List.Forall₂.cons ⟨rfl, Or.inr ⟨hcl.2, hcl.1, ?_⟩⟩ ih3
            simp [SwapCondition.mark_as_expired, hcl.1]
          · have hpair : cleaned_pair ((cid, c), (cid, c.mark_as_expired now)) = true := by
              unfold cleaned_pair SwapCondition.mark_as_expired
              simp [hcl.1, hcl.2]
            rw [List.zip_cons_cons, List.countP_cons, hpair, if_pos rfl, ih4]
            omega
        · simp only [cleanup_loop, if_neg hlim, if_neg hcl]
          obtain ⟨ih1, ih2, ih3, ih4⟩ := ih acc hacc
          refine ⟨ih1, ih2, List.Forall₂.cons ⟨rfl, Or.inl rfl⟩ ih3, ?_⟩
          rw [List.zip_cons_cons, List.countP_cons, cleaned_pair_self_false, ih4]
          simp

/-- Claim C7: `cleanup_expired_conditions` expires at most `limit` conditions,
touches only entries that were `Active` and past `expires_at` (setting exactly
their status to `Expired`), returns the number cleaned, and decrements the
active counter by that number; concretely, with 5 expired Active conditions a
`limit = 3` call expires exactly 3 and returns 3, and a following `limit = 10`
call expires the remaining 2 and returns 2. -/
theorem C7_cleanup_respects_limit :
    (∀ (now : Nat) (s : ContractState) (limit : Nat),
        (cleanup_expired_conditions now s limit).1 ≤ limit
      ∧ (cleanup_expired_conditions now s limit).2.stats.active_conditions_count
          = s.stats.active_conditions_count - (cleanup_expired_conditions now s limit).1
      ∧ List.Forall₂ (cleanup_rel now) s.conditions
          (cleanup_expired_conditions now s limit).2.conditions
      ∧ List.countP cleaned_pair
          (s.conditions.zip (cleanup_expired_conditions now s limit).2.conditions)
          = (cleanup_expired_conditions now s limit).1)
  ∧ ((cleanup_expired_conditions 20 five_expired_state 3).1 = 3
    ∧ List.countP (fun e => decide (e.2.status = SwapStatus.Expired))
        (cleanup_expired_conditions 20 five_expired_state 3).2.conditions = 3
    ∧ (cleanup_expired_conditions 20
        (cleanup_expired_conditions 20 five_expired_state 3).2 10).1 = 2
    ∧ List.countP (fun e => decide (e.2.status = SwapStatus.Expired))
        (cleanup_expired_conditions 20
          (cleanup_expired_conditions 20 five_expired_state 3).2 10).2.conditions = 5) := by
  constructor
  · intro now s limit
    obtain ⟨h1, h2, h3, h4⟩ := cleanup_loop_spec now limit s.conditions 0 (Nat.zero_le _)
    by_cases hpos : 0 < (cleanup_loop now limit s.conditions 0).2
    · simp only [cleanup_expired_conditions, if_pos hpos]
      refine ⟨h1, ?_, h3, ?_⟩
      · trivial
      · simpa using h4
    · have hz : (cleanup_loop now limit s.conditions 0).2 = 0 := by omega
      simp only [cleanup_expired_conditions, if_neg hpos]
      refine ⟨by omega, by omega, ?_, ?_⟩
      · exact List.forall₂_same.2 (fun e _ => ⟨rfl, Or.inl rfl⟩)
      · rw [countP_cleaned_zip_self, hz]
  · exact ⟨by decide, by decide, by decide, by decide⟩

/-- Claim C4 counterexample: `big_price_request` passes validation and
`create_swap_condition` succeeds (BTC reference price 45_000_000_000), but
`amount_to_swap * reference_price` overflows `u64`, so the stored
`min_amount_out` (372905114) is not the claimed
`floor((amount * ref / ref) * (10000 - slippage) / 10000)` = 1999800000000. -/
theorem C4_counterexample_overflowing_reference :
    CreateSwapRequest.validate big_price_request 1000 = Except.ok ()
  ∧ U64 ≤ big_price_request.amount_to_swap * 45000000000
  ∧ (create_swap_condition 1000 init_state 7 big_price_request).map
      (fun r => (get_condition r.2 r.1).map
        (fun c => (c.status, c.execution_count, c.reference_price, c.min_amount_out)))
      = Except.ok (some (SwapStatus.Active, 0, 45000000000, 372905114))
  ∧ 372905114 ≠ big_price_request.amount_to_swap * 45000000000 / 45000000000 *
      (10000 - big_price_request.max_slippage) / 10000 :=
  ⟨by rfl, by decide, by rfl, by decide⟩

/-- Claim C4 (amended): every successful `create_swap_condition` stores (and
`get_condition` returns) a condition with status `Active`, `execution_count`
0, a nonzero reference price, and `min_amount_out ≤ amount_to_swap`; the
claimed formula `min_amount_out = amount * (10000 - max_slippage) / 10000`
additionally requires `amount_to_swap * reference_price < 2^64` (no `u64`
overflow in the source's `amount_in * reference_price / reference_price`). -/
theorem C4_create_then_get (now : Nat) (s : ContractState) (caller : Nat)
    (req : CreateSwapRequest) (cid : Nat) (s' : ContractState)
    (h : create_swap_condition now s caller req = Except.ok (cid, s')) :
    ∃ c, get_condition s' cid = some c
      ∧ c.status = SwapStatus.Active
      ∧ c.execution_count = 0
      ∧ c.reference_price ≠ 0
      ∧ c.amount_to_swap = req.amount_to_swap
      ∧ c.max_slippage = req.max_slippage
      ∧ c.min_amount_out ≤ c.amount_to_swap
      ∧ (req.amount_to_swap * c.reference_price < U64 →
          c.min_amount_out = req.amount_to_swap * (10000 - req.max_slippage) / 10000) := by
  unfold create_swap_condition at h
  cases hnp : check_not_paused s with
  | error e =>
      simp only [hnp] at h
      exact Except.noConfusion h
  | ok u0 =>
  simp only [hnp] at h
  cases hval : CreateSwapRequest.validate req now with
  | error e =>
      simp only [hval] at h
      exact Except.noConfusion h
  | ok u1 =>
  cases u1
  simp only [hval] at h
  cases hcfg : s.config with
  | none =>
      simp only [hcfg] at h
      exact Except.noConfusion h
  | some config =>
  simp only [hcfg] at h
  cases hlim : check_user_condition_limit s caller config.max_conditions_per_user with
  | error e =>
      simp only [hlim] at h
      exact Except.noConfusion h
  | ok u2 =>
  simp only [hlim] at h
  by_cases hamt : req.amount_to_swap < config.min_condition_value
  · rw [if_pos hamt] at h
    exact Except.noConfusion h
  · rw [if_neg hamt] at h
    by_cases hsucc :
        (PriceOracleClient.get_price now config.oracle_config req.source_asset).success = false
    · rw [if_pos hsucc] at h
      exact Except.noConfusion h
    · rw [if_neg hsucc] at h
      cases hpd :
          (PriceOracleClient.get_price now config.oracle_config req.source_asset).price_data with
      | none =>
          simp only [hpd] at h
          exact Except.noConfusion h
      | some current_price =>
      simp only [hpd] at h
      cases hvp :
          PriceOracleClient.validate_price_for_swap now current_price config.oracle_config with
      | error e =>
          simp only [hvp] at h
          exact Except.noConfusion h
      | ok u3 =>
      cases u3
      simp only [hvp] at h
      cases hliq : check_liquidity now config.dex_config req.source_asset
          req.destination_asset req.amount_to_swap with
      | error e =>
          simp only [hliq] at h
          exact Except.noConfusion h
      | ok has_liquidity =>
      simp only [hliq] at h
      by_cases hhl : has_liquidity = false
      · rw [if_pos hhl] at h
        exact Except.noConfusion h
      · rw [if_neg hhl] at h
        simp only [Except.ok.injEq, Prod.mk.injEq] at h
        obtain ⟨hcid, hs⟩ := h
        subst hcid
        subst hs
        refine ⟨SwapCondition.new now s.nextConditionId caller req current_price.price,
          ?_, rfl, rfl, ?_, rfl, rfl, ?_, ?_⟩
        · simp [get_condition, add_user_condition, mapGet_mapSet_self]
        · exact validate_price_ok_ne_zero now current_price config.oracle_config hvp
        · exact calculate_min_amount_out_le _ _ _
        · intro hfit
          exact calculate_min_amount_out_eq req.amount_to_swap current_price.price
            req.max_slippage
            (validate_price_ok_ne_zero now current_price config.oracle_config hvp)
            hfit (validate_ok_bounds req now hval).2.1

/-- Witness for C4: a concrete successful creation (100 XLM at XLM reference
price 120000, 5% slippage). -/
theorem C4_create_then_get_witness :
    create_swap_condition 50 init_state 7 small_request = Except.ok (1, small_request_state)
  ∧ (∃ c, get_condition small_request_state 1 = some c
      ∧ c.status = SwapStatus.Active
      ∧ c.execution_count = 0
      ∧ c.reference_price ≠ 0
      ∧ c.amount_to_swap = small_request.amount_to_swap
      ∧ c.max_slippage = small_request.max_slippage
      ∧ c.min_amount_out ≤ c.amount_to_swap
      ∧ (small_request.amount_to_swap * c.reference_price < U64 →
          c.min_amount_out =
            small_request.amount_to_swap * (10000 - small_request.max_slippage) / 10000)) :=
  ⟨by rfl, C4_create_then_get 50 init_state 7 small_request 1 small_request_state (by rfl)⟩
